import Mathlib

/-!
Verification of the conversation-state core of the chat-assistant repository
(`ai_assistant.py`, `context_manager.py`, and the temperature validation
boundary of `telegram_bot.py`) against its specification.

The Python code is shallowly embedded: sessions (`ChatAssistant`) become a
structure, the file system becomes an association list from file names to
persisted records, and every method becomes a pure function threading the
session and the file system explicitly.  The network call inside
`get_response` is the only external effect; it is modelled by an `outcome`
parameter: `some (reply, metrics)` for a successful provider call and `none`
for a raised transport/provider exception.
-/

/-- One chat message: a role plus a content text, one element of the Python message list. -/
structure Turn where
  role : String
  content : String
deriving DecidableEq, Repr

/-- The persisted JSON record written by `save_history` (ai_assistant.py
lines 285-294): model, temperature, optional language, `last_updated`
timestamp and the message list.  `last_updated` is modelled as a number. -/
structure Record where
  model : String
  temperature : ℚ
  language : Option String
  last_updated : ℕ
  messages : List Turn
deriving DecidableEq, Repr

/-- The file system visible to the persistence layer: file name to record. -/
abbrev FS := List (String × Record)

/-- Read a file; `none` models `Path(...).exists()` being false. -/
def fsRead (fs : FS) (f : String) : Option Record :=
  match fs with
  | [] => none
  | (g, r) :: t => if g = f then some r else fsRead t f

/-- Whole-record overwrite, as in `save_history` (`open(..., 'w')`). -/
def fsWrite (fs : FS) (f : String) (r : Record) : FS :=
  match fs with
  | [] => [(f, r)]
  | (g, r0) :: t => if g = f then (g, r) :: t else (g, r0) :: fsWrite t f r

/-- In-memory state of `ChatAssistant` (ai_assistant.py lines 57-62). -/
structure ChatAssistant where
  model : String
  history_file : Option String
  temperature : ℚ
  messages : List Turn
deriving DecidableEq, Repr

/-- Python `needle in hay` substring test, over explicit character lists. -/
def containsSub (needle hay : List Char) : Bool :=
  match hay with
  | [] => needle.isEmpty
  | c :: t => needle.isPrefixOf (c :: t) || containsSub needle t

/-- Python `str.lower()`; model identifiers are ASCII, where `Char.toLower`
agrees with Python. -/
def lowerStr (s : String) : List Char :=
  s.data.map Char.toLower

/-- The marker list bound to `claude_models` at ai_assistant.py line 86. -/
def claude_models : List String := ["claude", "sonnet"]

/-- Method `is_claude_model` (ai_assistant.py lines 84-87):
`any(model in self.model.lower() for model in claude_models)`. -/
def ChatAssistant.is_claude_model (s : ChatAssistant) : Bool :=
  claude_models.any (fun m => containsSub m.data (lowerStr s.model))

/-- The two provider families the adapter dispatches between. -/
inductive Family where
  | anthropic
  | openai
deriving DecidableEq, Repr

/-- The branch taken at ai_assistant.py line 110: `if self.is_claude_model()`. -/
def ChatAssistant.requestFamily (s : ChatAssistant) : Family :=
  if s.is_claude_model then Family.anthropic else Family.openai

/-- Family-tagged usage metrics, as extracted in `get_response`
(ai_assistant.py lines 146-161 for Anthropic, 204-214 for OpenAI). -/
inductive Metrics where
  | anthropicUsage (input_tokens output_tokens : ℕ)
      (cache_creation_input_tokens cache_read_input_tokens : ℕ)
      (stop_reason : Option String)
  | openaiUsage (prompt_tokens completion_tokens total_tokens : ℕ)
deriving DecidableEq, Repr

/-- Python's `if language:` guard at ai_assistant.py line 293: both `None`
and the empty string are falsy, so only a non-empty language is written. -/
def truthyLang : Option String → Option String
  | none => none
  | some l => if l.isEmpty then none else some l

/-- Method `save_history` (ai_assistant.py lines 261-300).  The `language`
argument is the value the method resolves at lines 272-283: the explicit
parameter when the caller passed one, otherwise the language recovered from
the `chat_history_{user_id}.json` file-name regex and the context manager
(or `none` when the file name does not match).  Python's `if language:`
treats both `None` and the empty string as false, hence the emptiness
check.  The write serializes the full current message list. -/
def ChatAssistant.save_history (s : ChatAssistant) (now : ℕ)
    (language : Option String) (fs : FS) : FS :=
  match s.history_file with
  | none => fs
  | some f =>
      fsWrite fs f ⟨s.model, s.temperature, truthyLang language, now, s.messages⟩

/-- Method `load_history` (ai_assistant.py lines 303-330).  Returns the updated
session and the language found in the file.  Messages are only taken from
the record when the stored list is non-empty (the truthiness guard on the
messages key); the model and temperature keys are present in every record
this persistence layer writes, so their membership checks pass. -/
def ChatAssistant.load_history (s : ChatAssistant) (fs : FS) :
    ChatAssistant × Option String :=
  match s.history_file with
  | none => (s, none)
  | some f =>
      match fsRead fs f with
      | none => (s, none)
      | some r =>
          let s1 := if r.messages.isEmpty then s else { s with messages := r.messages }
          ({ s1 with model := r.model, temperature := r.temperature }, r.language)

/-- Constructor `__init__` (ai_assistant.py lines 46-69): seed `messages` with the
system turn, then, when a history file is configured, load it and — when the
file did not exist — save the initial state.  `resolvedLang` is the language
that the initial `save_history()` call resolves (see `save_history`). -/
def ChatAssistant.init (model system_message : String)
    (history_file : Option String) (temperature : ℚ)
    (fs : FS) (now : ℕ) (resolvedLang : Option String) : ChatAssistant × FS :=
  let s : ChatAssistant :=
    ⟨model, history_file, temperature, [⟨"system", system_message⟩]⟩
  match history_file with
  | none => (s, fs)
  | some f =>
      let s1 := (s.load_history fs).1
      if (fsRead fs f).isSome then (s1, fs)
      else (s1, s1.save_history now resolvedLang fs)

/-- Method `add_message` (ai_assistant.py lines 71-82): append the turn, then save
immediately when a history file is configured.  `lang` is the language the
triggered `save_history()` resolves. -/
def ChatAssistant.add_message (s : ChatAssistant) (fs : FS) (now : ℕ)
    (lang : Option String) (role content : String) : ChatAssistant × FS :=
  let s1 : ChatAssistant := { s with messages := s.messages ++ [⟨role, content⟩] }
  match s1.history_file with
  | none => (s1, fs)
  | some _ => (s1, s1.save_history now lang fs)

/-- The error reply built at ai_assistant.py line 238 by prefixing the
exception text. -/
def errorReply (errText : String) : String :=
  "Ошибка при получении ответа: " ++ errText

/-- Method `get_response` (ai_assistant.py lines 89-238).  The user turn is
appended (and persisted) first; `outcome` models the provider interaction
inside the `try` block: `some (reply, metrics)` when the call succeeds,
`none` when it raises.  On success the assistant turn is appended; on
failure the exception is converted to a textual reply and `None` metrics,
with no assistant turn appended. -/
def ChatAssistant.get_response (s : ChatAssistant) (fs : FS) (now : ℕ)
    (lang : Option String) (user_message : String)
    (outcome : Option (String × Option Metrics)) (errText : String) :
    ChatAssistant × FS × String × Option Metrics :=
  let (s1, fs1) := s.add_message fs now lang "user" user_message
  match outcome with
  | some (assistant_message, metrics) =>
      let (s2, fs2) := s1.add_message fs1 now lang "assistant" assistant_message
      (s2, fs2, assistant_message, metrics)
  | none =>
      (s1, fs1, errorReply errText, none)

/-- Method `clear_history` (ai_assistant.py lines 240-250).  The file system is
threaded through unchanged because the method performs no write.  With
`keep_system` and an empty message list, `self.messages[0]` raises
`IndexError`, modelled as `none`. -/
def ChatAssistant.clear_history (s : ChatAssistant) (fs : FS)
    (keep_system : Bool) : Option (ChatAssistant × FS) :=
  if keep_system then
    match s.messages with
    | [] => none
    | t :: _ => some ({ s with messages := [t] }, fs)
  else some ({ s with messages := [] }, fs)

/-! ### Object-level model of `get_history`

`get_history` (ai_assistant.py lines 252-259) returns `self.messages.copy()`
— a *shallow* copy: the list object is new, but its elements are the very
same message dicts the session holds.  To reason about this aliasing, the
session is modelled at the Python object level: a heap of turn objects
(`TurnStore`) addressed by references, with the session and any snapshot
holding lists of references. -/

/-- Heap of message-dict objects, addressed by position. -/
abbrev TurnStore := List Turn

/-- Object-level session state: `self.messages` as a list of references
into the heap. -/
structure SessionObj where
  messagesRefs : List ℕ
deriving DecidableEq, Repr

/-- Method `get_history` at the object level: `self.messages.copy()` yields a new
list containing the same references. -/
def SessionObj.get_history (s : SessionObj) : List ℕ :=
  s.messagesRefs

/-- A caller assigning new content to a message dict it holds a reference
to: the heap cell is updated in place. -/
def storeWriteContent (st : TurnStore) (r : ℕ) (c : String) : TurnStore :=
  match st[r]? with
  | none => st
  | some t => st.set r { t with content := c }

/-- The turn sequence a session denotes: its references read in the heap. -/
def SessionObj.view (s : SessionObj) (st : TurnStore) : List (Option Turn) :=
  s.messagesRefs.map (fun r => st[r]?)

/-! ### Session registry (`context_manager.py`) and the temperature boundary -/

/-- Constant `DEFAULT_MODEL` (config.py line 13). -/
def DEFAULT_MODEL : String := "claude-sonnet-4-5-20250929"

/-- Constant `DEFAULT_SYSTEM_MESSAGE` (config.py line 14). -/
def DEFAULT_SYSTEM_MESSAGE : String :=
  "Ты дружелюбный и умный помощник. Отвечай подробно и полезно."

/-- Constant `DEFAULT_TEMPERATURE` (config.py line 15). -/
def DEFAULT_TEMPERATURE : ℚ := 1

/-- Modelled from the spec: `DEFAULT_LANGUAGE` is imported by
`context_manager.py` from the configuration module, but the `config.py`
under the sources does not define it; the spec fixes the default language
tag to "ru". -/
def DEFAULT_LANGUAGE : String := "ru"

/-- Expansion of the history-file naming template of config.py line 42,
`chat_history_{user_id}.json` (config.py line 42). -/
def history_file_for (user_id : ℕ) : String :=
  "chat_history_" ++ toString user_id ++ ".json"

/-- Association-list lookup for the module-level dicts. -/
def alistGet {α : Type} (l : List (ℕ × α)) (k : ℕ) : Option α :=
  match l with
  | [] => none
  | (k0, v) :: t => if k0 = k then some v else alistGet t k

/-- Association-list store, `d[k] = v`. -/
def alistSet {α : Type} (l : List (ℕ × α)) (k : ℕ) (v : α) : List (ℕ × α) :=
  match l with
  | [] => [(k, v)]
  | (k0, v0) :: t => if k0 = k then (k0, v) :: t else (k0, v0) :: alistSet t k v

/-- Process-wide mutable state of `context_manager.py`: the
`user_assistants` dict (modelled as user id to index into a store of live
`ChatAssistant` objects, so that instance identity is visible), the
`user_languages` dict, and the file system. -/
structure BotState where
  user_assistants : List (ℕ × ℕ)
  assistants : List ChatAssistant
  user_languages : List (ℕ × String)
  fs : FS
deriving DecidableEq, Repr

/-- Function `get_user_language` (context_manager.py lines 31-41). -/
def get_user_language (langs : List (ℕ × String)) (user_id : ℕ) : String :=
  (alistGet langs user_id).getD DEFAULT_LANGUAGE

/-- Function `get_user_assistant` (context_manager.py lines 64-107).  On a registry
hit the stored instance is returned unchanged.  On a miss a `ChatAssistant`
is constructed (its `__init__` loads the history file and, when the file was
absent, saves the initial state — the language that save resolves through
the file-name regex is `get_user_language user_id`), the language stored in
the history file is copied into `user_languages`, the system turn's content
is switched to the language's default (`sysmsg_en` stands for
`DEFAULT_SYSTEM_MESSAGE_EN`, imported from the configuration module but
absent from the sources), and the instance is stored and returned.  The
returned `ℕ` is the reference to the live instance in `assistants`. -/
def get_user_assistant (sysmsg_en : String) (now : ℕ)
    (st : BotState) (user_id : ℕ) : BotState × ℕ :=
  match alistGet st.user_assistants user_id with
  | some r => (st, r)
  | none =>
      let history_file := history_file_for user_id
      let initLang := get_user_language st.user_languages user_id
      let (a, fs1) := ChatAssistant.init DEFAULT_MODEL DEFAULT_SYSTEM_MESSAGE
        (some history_file) DEFAULT_TEMPERATURE st.fs now (some initLang)
      let langs1 :=
        match fsRead fs1 history_file with
        | some rec =>
            match rec.language with
            | some l => alistSet st.user_languages user_id l
            | none => st.user_languages
        | none => st.user_languages
      let language := get_user_language langs1 user_id
      let sysmsg := if language = "en" then sysmsg_en else DEFAULT_SYSTEM_MESSAGE
      let a1 :=
        match a.messages with
        | [] => a
        | t :: rest => { a with messages := { t with content := sysmsg } :: rest }
      let r := st.assistants.length
      ({ st with
          user_assistants := alistSet st.user_assistants user_id r,
          assistants := st.assistants ++ [a1],
          user_languages := langs1,
          fs := fs1 }, r)

/-- The `/temperature` argument as seen after `float(context.args[0])`:
no arguments, a parse failure (`ValueError`), or a parsed number. -/
inductive TempArg where
  | noArgs
  | malformed
  | value (t : ℚ)
deriving DecidableEq, Repr

/-- Which reply `temperature_command` sends. -/
inductive TempReply where
  | infoShown
  | formatError
  | rangeError
  | changed (oldTemp newTemp : ℚ)
deriving DecidableEq, Repr

/-- Handler `temperature_command` (telegram_bot.py lines 508-549), acting on the
user's resolved assistant: out-of-range values are rejected before any
mutation, `ValueError` yields a format error, and only an accepted value
mutates the temperature and persists (`lang` is the language that
`save_history()` resolves). -/
def temperature_command (s : ChatAssistant) (fs : FS) (now : ℕ)
    (lang : Option String) (arg : TempArg) : ChatAssistant × FS × TempReply :=
  match arg with
  | TempArg.noArgs => (s, fs, TempReply.infoShown)
  | TempArg.malformed => (s, fs, TempReply.formatError)
  | TempArg.value t =>
      if ¬ (0 ≤ t ∧ t ≤ 2) then (s, fs, TempReply.rangeError)
      else
        let s1 : ChatAssistant := { s with temperature := t }
        (s1, s1.save_history now lang fs, TempReply.changed s.temperature t)

/-! ### Helper lemmas -/

/-- Reading back a file just written yields the written record. -/
theorem fsRead_fsWrite (fs : FS) (f : String) (r : Record) :
    fsRead (fsWrite fs f r) f = some r := by
  induction fs with
  | nil => simp [fsWrite, fsRead]
  | cons p t ih =>
      obtain ⟨g, r0⟩ := p
      by_cases h : g = f
      · simp [fsWrite, fsRead, h]
      · simp [fsWrite, fsRead, h, ih]

/-- Looking up a key just stored yields the stored value. -/
theorem alistGet_alistSet {α : Type} (l : List (ℕ × α)) (k : ℕ) (v : α) :
    alistGet (alistSet l k v) k = some v := by
  induction l with
  | nil => simp [alistGet, alistSet]
  | cons p t ih =>
      obtain ⟨k0, v0⟩ := p
      by_cases h : k0 = k
      · simp [alistSet, alistGet, h]
      · simp [alistSet, alistGet, h, ih]

/-- The session returned by `add_message` is the input with the turn
appended, in both the persisting and the non-persisting branch. -/
theorem add_message_fst (s : ChatAssistant) (fs : FS) (now : ℕ)
    (lang : Option String) (role content : String) :
    (s.add_message fs now lang role content).1
      = { s with messages := s.messages ++ [⟨role, content⟩] } := by
  cases h : s.history_file <;>
    simp [ChatAssistant.add_message, h, ChatAssistant.save_history]

/-- With a configured history file, `add_message` writes the full updated
message list to that file. -/
theorem add_message_snd (s : ChatAssistant) (fs : FS) (now : ℕ)
    (lang : Option String) (role content f : String)
    (h : s.history_file = some f) :
    (fsRead (s.add_message fs now lang role content).2 f).map Record.messages
      = some (s.messages ++ [⟨role, content⟩]) := by
  simp [ChatAssistant.add_message, h, ChatAssistant.save_history, fsRead_fsWrite]

/-- Method `add_message` does not touch the `history_file` field. -/
theorem add_message_file (s : ChatAssistant) (fs : FS) (now : ℕ)
    (lang : Option String) (role content : String) :
    (s.add_message fs now lang role content).1.history_file = s.history_file := by
  rw [add_message_fst]

/-! ### Claims -/

/-- C4: the adapter selects the Claude (system/turn) family exactly when
the lowercased model identifier contains "claude" or "sonnet" as a
substring; any other identifier, such as "foo-model", is routed to the
default OpenAI (turn-array) family. -/
theorem claim_C4_dispatch (m : String) (hf : Option String) (t : ℚ)
    (ms : List Turn) :
    ((ChatAssistant.mk m hf t ms).requestFamily = Family.anthropic ↔
      (containsSub "claude".data (lowerStr m) = true ∨
        containsSub "sonnet".data (lowerStr m) = true)) ∧
    (ChatAssistant.mk "foo-model" none 1 []).requestFamily = Family.openai := by
  constructor
  · have key : (ChatAssistant.mk m hf t ms).is_claude_model = true ↔
        (containsSub "claude".data (lowerStr m) = true ∨
          containsSub "sonnet".data (lowerStr m) = true) := by
      simp [ChatAssistant.is_claude_model, claude_models]
    rw [← key]
    unfold ChatAssistant.requestFamily
    cases hb : (ChatAssistant.mk m hf t ms).is_claude_model <;> simp [hb]
  · decide

/-- C6: `clear_history` with `keep_system` resets the turn sequence to the
one-element list holding the first turn, without it to the empty list, and
neither variant writes the persisted record (the file system is returned
unchanged). -/
theorem claim_C6_clear (s : ChatAssistant) (fs : FS) (t : Turn)
    (rest : List Turn) (h : s.messages = t :: rest) :
    s.clear_history fs true = some ({ s with messages := [t] }, fs) ∧
    s.clear_history fs false = some ({ s with messages := [] }, fs) := by
  constructor
  · simp [ChatAssistant.clear_history, h]
  · simp [ChatAssistant.clear_history]

/-- The five-turn sample session of the specification's clear scenario. -/
def sampleAssistant : ChatAssistant :=
  ⟨"gpt-4o", some "chat_history_1.json", 1,
    [⟨"system", "Ты полезный ассистент."⟩, ⟨"user", "Привет"⟩,
     ⟨"assistant", "Привет! Как дела?"⟩, ⟨"user", "Что нового?"⟩,
     ⟨"assistant", "Всё хорошо."⟩]⟩

/-- C6 witness: clearing the five-turn sample session. -/
theorem claim_C6_clear_witness :
    sampleAssistant.clear_history [] true
      = some ({ sampleAssistant with
          messages := [⟨"system", "Ты полезный ассистент."⟩] }, []) ∧
    sampleAssistant.clear_history [] false
      = some ({ sampleAssistant with messages := [] }, []) :=
  claim_C6_clear sampleAssistant [] ⟨"system", "Ты полезный ассистент."⟩
    [⟨"user", "Привет"⟩, ⟨"assistant", "Привет! Как дела?"⟩,
     ⟨"user", "Что нового?"⟩, ⟨"assistant", "Всё хорошо."⟩] rfl

/-- C8: an out-of-range temperature is rejected with the range-error reply
and leaves the session (in particular its prior temperature) and the file
system unchanged; a non-numeric argument is rejected with the format-error
reply, likewise without any state change. -/
theorem claim_C8_temp_validation (s : ChatAssistant) (fs : FS) (now : ℕ)
    (lang : Option String) (t : ℚ) (h : ¬ (0 ≤ t ∧ t ≤ 2)) :
    temperature_command s fs now lang (TempArg.value t)
      = (s, fs, TempReply.rangeError) ∧
    temperature_command s fs now lang TempArg.malformed
      = (s, fs, TempReply.formatError) := by
  refine ⟨?_, rfl⟩
  simp [temperature_command, h]

/-- C8 witness: temperature 2.5 is rejected on the sample session. -/
theorem claim_C8_temp_validation_witness :
    temperature_command sampleAssistant [] 0 (some "ru")
        (TempArg.value (5 / 2)) = (sampleAssistant, [], TempReply.rangeError) ∧
    temperature_command sampleAssistant [] 0 (some "ru") TempArg.malformed
      = (sampleAssistant, [], TempReply.formatError) :=
  claim_C8_temp_validation sampleAssistant [] 0 (some "ru") (5 / 2) (by norm_num)

/-- A single-turn session used as concrete input for the failure-path
counterexample and witnesses. -/
def sampleFresh : ChatAssistant :=
  ⟨"gpt-4o", some "chat_history_2.json", 1,
    [⟨"system", "Ты полезный ассистент."⟩]⟩

/-- C1 counterexample: on a failed provider call the textual error reply
returned by `get_response` is *not* appended to the session's history as an
assistant turn — contrary to the claim — as this concrete failed turn
shows. -/
theorem claim_C1_failure_cex :
    (Turn.mk "assistant"
        ((sampleFresh.get_response [] 0 (some "ru") "Привет" none "boom").2.2.1))
      ∉ (sampleFresh.get_response [] 0 (some "ru") "Привет" none "boom").1.messages := by
  decide

/-- C1 (amended): on a failed provider call the failure is converted at the
adapter boundary into a textual error reply (no exception escapes) and the
returned metrics value is null, but that textual reply is not appended to
the session's history: only the user turn has been appended. -/
theorem claim_C1_failure_semantics (s : ChatAssistant) (fs : FS) (now : ℕ)
    (lang : Option String) (um errText : String) :
    (s.get_response fs now lang um none errText).2.2.1 = errorReply errText ∧
    (s.get_response fs now lang um none errText).2.2.2 = none ∧
    (s.get_response fs now lang um none errText).1.messages
      = s.messages ++ [⟨"user", um⟩] := by
  refine ⟨?_, ?_, ?_⟩ <;>
    cases h : s.history_file <;>
      simp [ChatAssistant.get_response, ChatAssistant.add_message, h]

/-- C10: the user turn is appended (and, with a storage locator set,
persisted) before the provider call, and is not rolled back on failure: the
resulting history is the previous history plus the user turn, the persisted
record matches it, and the history ends in a user turn with no assistant
reply. -/
theorem claim_C10_user_turn_kept (s : ChatAssistant) (fs : FS) (now : ℕ)
    (lang : Option String) (um errText f : String)
    (h : s.history_file = some f) :
    (s.get_response fs now lang um none errText).1.messages
      = s.messages ++ [⟨"user", um⟩] ∧
    (fsRead (s.get_response fs now lang um none errText).2.1 f).map
        Record.messages = some (s.messages ++ [⟨"user", um⟩]) ∧
    ((s.get_response fs now lang um none errText).1.messages).getLast?
      = some ⟨"user", um⟩ := by
  refine ⟨?_, ?_, ?_⟩
  · simp [ChatAssistant.get_response, ChatAssistant.add_message, h]
  · simp [ChatAssistant.get_response, ChatAssistant.add_message, h,
      ChatAssistant.save_history, fsRead_fsWrite]
  · simp [ChatAssistant.get_response, ChatAssistant.add_message, h]

/-- C10 witness: a concrete failed turn on a fresh persisted session. -/
theorem claim_C10_user_turn_kept_witness :
    (sampleFresh.get_response [] 0 (some "ru") "Привет" none "boom").1.messages
      = sampleFresh.messages ++ [⟨"user", "Привет"⟩] ∧
    (fsRead (sampleFresh.get_response [] 0 (some "ru") "Привет" none
        "boom").2.1 "chat_history_2.json").map Record.messages
      = some (sampleFresh.messages ++ [⟨"user", "Привет"⟩]) ∧
    ((sampleFresh.get_response [] 0 (some "ru") "Привет" none
        "boom").1.messages).getLast? = some ⟨"user", "Привет"⟩ :=
  claim_C10_user_turn_kept sampleFresh [] 0 (some "ru") "Привет" "boom"
    "chat_history_2.json" rfl

/-- C2: every `add_message` on a session with a storage locator immediately
writes the full record, so the on-disk message list equals the in-memory
one after a single append, and likewise after the user/assistant turn pair
appended by a successful `get_response`. -/
theorem claim_C2_append_durable (s : ChatAssistant) (fs : FS) (now : ℕ)
    (lang : Option String) (role content um reply f : String)
    (m : Option Metrics) (h : s.history_file = some f) :
    (fsRead (s.add_message fs now lang role content).2 f).map Record.messages
      = some ((s.add_message fs now lang role content).1.messages) ∧
    (fsRead (s.get_response fs now lang um (some (reply, m)) "").2.1 f).map
        Record.messages
      = some ((s.get_response fs now lang um (some (reply, m)) "").1.messages) := by
  constructor
  · rw [add_message_snd s fs now lang role content f h, add_message_fst]
  · simp [ChatAssistant.get_response, ChatAssistant.add_message, h,
      ChatAssistant.save_history, fsRead_fsWrite]

/-- C2 witness: a single append and a successful turn pair on the sample
session are both immediately durable. -/
theorem claim_C2_append_durable_witness :
    (fsRead (sampleFresh.add_message [] 0 (some "ru") "user" "Привет").2
        "chat_history_2.json").map Record.messages
      = some ((sampleFresh.add_message [] 0 (some "ru") "user"
          "Привет").1.messages) ∧
    (fsRead (sampleFresh.get_response [] 0 (some "ru") "Привет"
        (some ("Привет! Как дела?", none)) "").2.1 "chat_history_2.json").map
        Record.messages
      = some ((sampleFresh.get_response [] 0 (some "ru") "Привет"
          (some ("Привет! Как дела?", none)) "").1.messages) :=
  claim_C2_append_durable sampleFresh [] 0 (some "ru") "user" "Привет"
    "Привет" "Привет! Как дела?" "chat_history_2.json" none rfl

/-- C5: constructing a session whose history file does not exist never
raises: the read is treated as a fresh session, the session holds exactly
the single system turn, and that system-only state is immediately written
so the file now exists with exactly that content. -/
theorem claim_C5_missing_file (model sysm f : String) (t : ℚ) (fs : FS)
    (now : ℕ) (rl : Option String) (h : fsRead fs f = none) :
    (ChatAssistant.init model sysm (some f) t fs now rl).1.messages
      = [⟨"system", sysm⟩] ∧
    (fsRead (ChatAssistant.init model sysm (some f) t fs now rl).2 f).map
        Record.messages = some [⟨"system", sysm⟩] := by
  constructor
  · simp [ChatAssistant.init, ChatAssistant.load_history, h]
  · simp [ChatAssistant.init, ChatAssistant.load_history, h,
      ChatAssistant.save_history, fsRead_fsWrite]

/-- C5 witness: creating a session over an empty file system. -/
theorem claim_C5_missing_file_witness :
    (ChatAssistant.init "gpt-4o" "Ты полезный ассистент."
        (some "chat_history_3.json") 1 [] 0 (some "ru")).1.messages
      = [⟨"system", "Ты полезный ассистент."⟩] ∧
    (fsRead (ChatAssistant.init "gpt-4o" "Ты полезный ассистент."
        (some "chat_history_3.json") 1 [] 0 (some "ru")).2
        "chat_history_3.json").map Record.messages
      = some [⟨"system", "Ты полезный ассистент."⟩] :=
  claim_C5_missing_file "gpt-4o" "Ты полезный ассистент."
    "chat_history_3.json" 1 [] 0 (some "ru") rfl

/-- A session whose turn sequence has been fully cleared
(`clear_history(keep_system=False)`), used to refute the unrestricted
round-trip claim. -/
def clearedSession : ChatAssistant :=
  ⟨"gpt-4o", some "chat_history_7.json", 1, []⟩

/-- C3 counterexample: for a session whose turn sequence is empty, writing
the persisted record and reading it back into a fresh session does not
reproduce the turn sequence — `load_history` ignores an empty `messages`
field, so the fresh session keeps its initial system turn. -/
theorem claim_C3_roundtrip_cex :
    ((ChatAssistant.mk DEFAULT_MODEL (some "chat_history_7.json") 1
          [⟨"system", DEFAULT_SYSTEM_MESSAGE⟩]).load_history
        (clearedSession.save_history 0 (some "ru") [])).1.messages
      ≠ clearedSession.messages := by
  decide

/-- C3 (amended): for every session whose turn sequence is non-empty (and
whose language tag, when present, is a non-empty string), writing the
persisted record and reading it back into a fresh session with the same
locator yields the pre-write turn sequence and matching model, temperature
and language. -/
theorem claim_C3_roundtrip (s fresh0 : ChatAssistant) (fs : FS) (now : ℕ)
    (language : Option String) (f : String)
    (hf : s.history_file = some f) (hfr : fresh0.history_file = some f)
    (hne : s.messages ≠ [])
    (hl : ∀ l, language = some l → l.isEmpty = false) :
    (fresh0.load_history (s.save_history now language fs)).1.messages
      = s.messages ∧
    (fresh0.load_history (s.save_history now language fs)).1.model
      = s.model ∧
    (fresh0.load_history (s.save_history now language fs)).1.temperature
      = s.temperature ∧
    (fresh0.load_history (s.save_history now language fs)).2 = language := by
  have hemp : s.messages.isEmpty = false := by
    cases hm : s.messages with
    | nil => exact absurd hm hne
    | cons a t => rfl
  have hlang : truthyLang language = language := by
    cases language with
    | none => rfl
    | some l => simp [truthyLang, hl l rfl]
  have hwrite : s.save_history now language fs
      = fsWrite fs f ⟨s.model, s.temperature, truthyLang language, now,
          s.messages⟩ := by
    simp [ChatAssistant.save_history, hf]
  rw [hwrite]
  simp [ChatAssistant.load_history, hfr, fsRead_fsWrite, hemp, hlang]

/-- C3 witness: round trip of the five-turn sample session. -/
theorem claim_C3_roundtrip_witness :
    ((ChatAssistant.mk DEFAULT_MODEL (some "chat_history_1.json")
          DEFAULT_TEMPERATURE [⟨"system", DEFAULT_SYSTEM_MESSAGE⟩]).load_history
        (sampleAssistant.save_history 0 (some "ru") [])).1.messages
      = sampleAssistant.messages ∧
    ((ChatAssistant.mk DEFAULT_MODEL (some "chat_history_1.json")
          DEFAULT_TEMPERATURE [⟨"system", DEFAULT_SYSTEM_MESSAGE⟩]).load_history
        (sampleAssistant.save_history 0 (some "ru") [])).1.model
      = sampleAssistant.model ∧
    ((ChatAssistant.mk DEFAULT_MODEL (some "chat_history_1.json")
          DEFAULT_TEMPERATURE [⟨"system", DEFAULT_SYSTEM_MESSAGE⟩]).load_history
        (sampleAssistant.save_history 0 (some "ru") [])).1.temperature
      = sampleAssistant.temperature ∧
    ((ChatAssistant.mk DEFAULT_MODEL (some "chat_history_1.json")
          DEFAULT_TEMPERATURE [⟨"system", DEFAULT_SYSTEM_MESSAGE⟩]).load_history
        (sampleAssistant.save_history 0 (some "ru") [])).2 = some "ru" :=
  claim_C3_roundtrip sampleAssistant
    (ChatAssistant.mk DEFAULT_MODEL (some "chat_history_1.json")
      DEFAULT_TEMPERATURE [⟨"system", DEFAULT_SYSTEM_MESSAGE⟩])
    [] 0 (some "ru") "chat_history_1.json" rfl rfl (by decide)
    (by intro l h; cases h; rfl)

/-- C7 counterexample: `get_history` returns a *shallow* copy, so a caller
that mutates the content of a returned turn object does change the
session's in-memory turn sequence, as this concrete session shows. -/
theorem claim_C7_snapshot_cex :
    SessionObj.view ⟨[0]⟩
        (storeWriteContent [⟨"system", "Ты полезный ассистент."⟩]
          ((SessionObj.get_history ⟨[0]⟩).headD 0) "changed")
      ≠ SessionObj.view ⟨[0]⟩ [⟨"system", "Ты полезный ассистент."⟩] := by
  decide

/-- C7 (amended): `get_history` returns a copy of the turn list — equal to
the in-memory sequence, so list-level mutations by the caller build new
lists and cannot change the session — but the copy is shallow: its elements
alias the session's turn objects, so assigning new content through a
reference taken from the snapshot changes the session's turn sequence at
that position. -/
theorem claim_C7_snapshot_shallow (s : SessionObj) (st : TurnStore) (i : ℕ)
    (c : String) (hi : i < s.get_history.length)
    (hr : s.get_history[i] < st.length) :
    s.get_history = s.messagesRefs ∧
    (s.view (storeWriteContent st s.get_history[i] c))[i]?
      = some (some ⟨st[s.get_history[i]].role, c⟩) := by
  refine ⟨rfl, ?_⟩
  have hst : st[s.get_history[i]]? = some st[s.get_history[i]] :=
    List.getElem?_eq_getElem hr
  have hwrite : storeWriteContent st s.get_history[i] c
      = st.set s.get_history[i] ⟨st[s.get_history[i]].role, c⟩ := by
    simp only [storeWriteContent, hst]
  rw [hwrite]
  unfold SessionObj.view
  rw [List.getElem?_map]
  rw [show s.messagesRefs[i]? = some s.get_history[i] from
    List.getElem?_eq_getElem hi]
  simp [List.getElem?_set_self hr]

/-- C7 witness: the amended statement at the concrete one-turn session. -/
theorem claim_C7_snapshot_shallow_witness :
    SessionObj.get_history ⟨[0]⟩ = SessionObj.messagesRefs ⟨[0]⟩ ∧
    (SessionObj.view ⟨[0]⟩
        (storeWriteContent [⟨"system", "Ты полезный ассистент."⟩] 0
          "changed"))[0]?
      = some (some ⟨"system", "changed"⟩) :=
  claim_C7_snapshot_shallow ⟨[0]⟩ [⟨"system", "Ты полезный ассистент."⟩]
    0 "changed" (by decide) (by decide)

/-- C9: `get_user_assistant` is idempotent — a second call for the same
user id with no intervening mutation returns the identical live instance
(same reference) and leaves the whole registry state unchanged, so a
session is created at most once per user for the process lifetime. -/
theorem claim_C9_registry_idempotent (sysmsg_en : String) (n1 n2 : ℕ)
    (st : BotState) (user_id : ℕ) :
    get_user_assistant sysmsg_en n2
        (get_user_assistant sysmsg_en n1 st user_id).1 user_id
      = get_user_assistant sysmsg_en n1 st user_id := by
  cases h : alistGet st.user_assistants user_id with
  | some r => simp [get_user_assistant, h]
  | none =>
      simp only [get_user_assistant, h]
      simp [alistGet_alistSet]
